import Mathlib

/-!
Verification of the EAC-PI-CHATBOT feedback backend (`src/Backend/app.py`).

The backend is a small FastAPI service persisting three record types
(sessions, chat messages, feedback responses) in a relational store and
exporting the feedback table as CSV or JSON.  We embed the store as three
Lean lists and each endpoint handler as a pure function from the store (plus
the request body) to a result and an updated store.  Two effects of the real
program are external oracles and become explicit parameters:

* `datetime.utcnow()` — the current time, modelled as a `Nat` parameter
  (`now`); claims about clock ordering take monotonicity hypotheses.
* `uuid4()` — the freshly generated identifier, modelled as a `String`
  parameter (`fid`); claims about uniqueness take a freshness hypothesis.

Timestamps are rendered with `toString` where the source calls
`.isoformat()`; the rendering is injective on our `Nat` timestamps, which is
all the export claims rely on.
-/

namespace Chatbot

/-- Row of the `sessions` table (`class Session(Base)` in `app.py`). -/
structure Session where
  id : String
  started_at : Nat
  ended_at : Option Nat
  consented : Bool
  research_version : Option String
  user_agent : Option String
  notes : Option String
  deriving Repr, DecidableEq

/-- Row of the `messages` table (`class Message(Base)` in `app.py`). -/
structure Message where
  id : String
  session_id : String
  role : String
  content : String
  ts : Nat
  deriving Repr, DecidableEq

/-- Row of the `feedback_responses` table (`class FeedbackResponse(Base)`). -/
structure FeedbackResponse where
  id : String
  session_id : String
  q_key : String
  answer_numeric : Option Int
  answer_text : Option String
  ts : Nat
  deriving Repr, DecidableEq

/-- The whole relational store: the three tables. -/
structure Store where
  sessions : List Session
  messages : List Message
  feedback : List FeedbackResponse
  deriving Repr, DecidableEq

/-- An `HTTPException(status, detail)` raised by a handler. -/
structure HttpError where
  status : Nat
  detail : String
  deriving Repr, DecidableEq

/-- Request body `StartSessionReq`; pydantic defaults `consented=False`,
`research_version=None`, `user_agent=None`. -/
structure StartSessionReq where
  consented : Bool := false
  research_version : Option String := none
  user_agent : Option String := none
  deriving Repr, DecidableEq

/-- Request body `ChatMessageReq`. -/
structure ChatMessageReq where
  session_id : String
  role : String
  content : String
  deriving Repr, DecidableEq

/-- Request body `EndSessionReq`. -/
structure EndSessionReq where
  session_id : String
  deriving Repr, DecidableEq

/-- Request body `FeedbackAnswerReq`; the two answer fields default to
`None`. -/
structure FeedbackAnswerReq where
  session_id : String
  q_key : String
  answer_numeric : Option Int := none
  answer_text : Option String := none
  deriving Repr, DecidableEq

/-- Handler for `POST /session/start`: build a fresh `Session` row with the submitted
consent flag, research version and user agent, add and commit, and return
the generated identifier.  `fid` is the `uuid4()` value used for the primary
key and `now` the `datetime.utcnow()` creation time. -/
def start_session (st : Store) (req : StartSessionReq) (fid : String)
    (now : Nat) : String × Store :=
  let sess : Session :=
    { id := fid, started_at := now, ended_at := none,
      consented := req.consented, research_version := req.research_version,
      user_agent := req.user_agent, notes := none }
  (sess.id, { st with sessions := st.sessions ++ [sess] })

/-- The three admissible message roles, from the membership test
`req.role not in ("user","assistant","system")` in `save_message`. -/
def validRoles : List String := ["user", "assistant", "system"]

/-- Handler for `POST /chat/message` (`save_message`): reject any role outside
`validRoles` with HTTP 400 before touching the store; otherwise add and
commit a new `Message` row.  No existence check on `session_id`. -/
def save_message (st : Store) (req : ChatMessageReq) (fid : String)
    (now : Nat) : Except HttpError Unit × Store :=
  if req.role ∉ validRoles then
    (.error ⟨400, "Invalid role"⟩, st)
  else
    (.ok (),
      { st with messages := st.messages ++
          [{ id := fid, session_id := req.session_id, role := req.role,
             content := req.content, ts := now }] })

/-- Lookup `s.get(Session, sid)`: primary-key lookup in the sessions table. -/
def getSession (sessions : List Session) (sid : String) : Option Session :=
  sessions.find? (fun s => s.id == sid)

/-- Handler for `POST /session/end` (`end_session`): 404 if the session does not exist,
otherwise set its `ended_at` to the current time and commit.  The map only
rewrites rows whose primary key matches, which is the single fetched row. -/
def end_session (st : Store) (req : EndSessionReq) (now : Nat) :
    Except HttpError Unit × Store :=
  match getSession st.sessions req.session_id with
  | none => (.error ⟨404, "Session not found"⟩, st)
  | some _ =>
      (.ok (),
        { st with sessions := st.sessions.map (fun s =>
            if s.id == req.session_id then { s with ended_at := some now }
            else s) })

/-- One entry of the hardcoded question catalog returned by
`POST /feedback/start`. -/
structure Question where
  key : String
  type : String
  label : String
  scale_min : Option Nat := none
  scale_max : Option Nat := none
  deriving Repr, DecidableEq

/-- The fixed question list from `feedback_start` in `app.py`. -/
def questionCatalog : List Question :=
  [ { key := "believability", type := "likert",
      label := "Is the environment believable?",
      scale_min := some 1, scale_max := some 5 },
    { key := "realism", type := "likert",
      label := "Is it realistic?",
      scale_min := some 1, scale_max := some 5 },
    { key := "design_opt", type := "likert",
      label := "Is this design optimized for your task?",
      scale_min := some 1, scale_max := some 5 },
    { key := "ease_use", type := "likert",
      label := "How easy was it to use?",
      scale_min := some 1, scale_max := some 5 },
    { key := "trust", type := "likert",
      label := "How much did you trust the responses?",
      scale_min := some 1, scale_max := some 5 },
    { key := "task_success", type := "likert",
      label := "Were you able to complete the intended task?",
      scale_min := some 1, scale_max := some 5 },
    { key := "free_text", type := "text",
      label := "Any suggestions to improve realism or usefulness?" } ]

/-- Request body `FeedbackStartReq`. -/
structure FeedbackStartReq where
  session_id : String
  deriving Repr, DecidableEq

/-- Handler for `POST /feedback/start` (`feedback_start`): echo the caller's session id
and return the static catalog.  The handler takes no database dependency at
all (it has no `Depends(db)` argument), which the type records: no `Store`
appears in or leaves it. -/
def feedback_start (req : FeedbackStartReq) : String × List Question :=
  (req.session_id, questionCatalog)

/-- Handler for `POST /feedback/answer` (`feedback_answer`): unconditionally add and
commit a new `FeedbackResponse` row carrying the submitted fields verbatim;
no existence check on `session_id` or `q_key`. -/
def feedback_answer (st : Store) (req : FeedbackAnswerReq) (fid : String)
    (now : Nat) : Except HttpError Unit × Store :=
  (.ok (),
    { st with feedback := st.feedback ++
        [{ id := fid, session_id := req.session_id, q_key := req.q_key,
           answer_numeric := req.answer_numeric,
           answer_text := req.answer_text, ts := now }] })

/-- The comparison `FeedbackResponse.ts.asc()` used by both export queries. -/
def tsLe (a b : FeedbackResponse) : Prop := a.ts ≤ b.ts

instance : DecidableRel tsLe := fun a b => inferInstanceAs (Decidable (a.ts ≤ b.ts))

instance : IsTotal FeedbackResponse tsLe := ⟨fun a b => Nat.le_total a.ts b.ts⟩

instance : IsTrans FeedbackResponse tsLe := ⟨fun _ _ _ => Nat.le_trans⟩

/-- Query `s.query(FeedbackResponse).order_by(FeedbackResponse.ts.asc()).all()`:
the feedback table in ascending timestamp order. -/
def sortByTs (l : List FeedbackResponse) : List FeedbackResponse :=
  List.insertionSort tsLe l

/-- CSV rendering of the `answer_numeric` column:
`"" if r.answer_numeric is None else r.answer_numeric`. -/
def csvNumeric (n : Option Int) : String :=
  match n with
  | none => ""
  | some v => toString v

/-- One CSV data row, the five cells passed to `w.writerow` in
`export_feedback_csv`: text answers have `None` coerced to `""`
(`r.answer_text or ""`) and embedded newlines replaced by spaces. -/
def csvRow (r : FeedbackResponse) : List String :=
  [r.session_id, r.q_key, csvNumeric r.answer_numeric,
    (r.answer_text.getD "").replace "\n" " ", toString r.ts]

/-- The CSV header row written first by `export_feedback_csv`. -/
def csvHeader : List String :=
  ["session_id", "q_key", "answer_numeric", "answer_text", "ts"]

/-- Handler for `GET /feedback/export.csv` (`export_feedback_csv`), modelled at the
level of rows of cells: the header row, then one `csvRow` per feedback row
in ascending timestamp order.  The byte-order mark and the
`Content-Disposition` header are transport dressing and are not modelled. -/
def export_feedback_csv (st : Store) : List (List String) :=
  csvHeader :: (sortByTs st.feedback).map csvRow

/-- One object of the JSON export: same five fields, with both nullable
answers preserved as-is. -/
structure JsonRow where
  session_id : String
  q_key : String
  answer_numeric : Option Int
  answer_text : Option String
  ts : String
  deriving Repr, DecidableEq

/-- The object built for one row inside `export_feedback_json`. -/
def toJsonRow (r : FeedbackResponse) : JsonRow :=
  { session_id := r.session_id, q_key := r.q_key,
    answer_numeric := r.answer_numeric, answer_text := r.answer_text,
    ts := toString r.ts }

/-- Handler for `GET /feedback/export.json` (`export_feedback_json`): the list of row
objects in ascending timestamp order. -/
def export_feedback_json (st : Store) : List JsonRow :=
  (sortByTs st.feedback).map toJsonRow

/-- The CSV row the spec says a given JSON row corresponds to: null numeric
renders as the empty string, null text as the empty string, and embedded
newlines in the text answer become spaces.  Written from the spec's words
(§4.3) for the refinement claim comparing the two exports. -/
def jsonRowAsCsv (j : JsonRow) : List String :=
  [j.session_id, j.q_key, csvNumeric j.answer_numeric,
    (j.answer_text.getD "").replace "\n" " ", j.ts]

/-- Iterate `n` successive `POST /feedback/answer` submissions of the same payload,
with per-call fresh ids `fid i` and timestamps `now i`. -/
def submitRepeat (sid qk : String) (num : Option Int) (txt : Option String)
    (fid : Nat → String) (now : Nat → Nat) : Nat → Store → Store
  | 0, st => st
  | n + 1, st =>
      submitRepeat sid qk num txt fid now n
        (feedback_answer st
          { session_id := sid, q_key := qk, answer_numeric := num,
            answer_text := txt } (fid n) (now n)).2

/-! ### Helper lemmas -/

/-- Sorting the feedback table permutes it, so membership is preserved. -/
theorem mem_sortByTs {x : FeedbackResponse} {l : List FeedbackResponse} :
    x ∈ sortByTs l ↔ x ∈ l :=
  (List.perm_insertionSort tsLe l).mem_iff

/-- Primary-key lookup misses when no row carries the key. -/
theorem getSession_eq_none {sessions : List Session} {sid : String}
    (h : ∀ s ∈ sessions, s.id ≠ sid) : getSession sessions sid = none := by
  rw [getSession, List.find?_eq_none]
  intro x hx
  simpa using h x hx

/-- Primary-key lookup hits when some row carries the key. -/
theorem getSession_isSome {sessions : List Session} {sid : String}
    (h : ∃ s ∈ sessions, s.id = sid) : ∃ t, getSession sessions sid = some t := by
  obtain ⟨s, hs, hid⟩ := h
  have : (sessions.find? (fun t => t.id == sid)).isSome :=
    List.find?_isSome.mpr ⟨s, hs, by simp [hid]⟩
  exact Option.isSome_iff_exists.mp this

/-- Shape of `end_session` on the found branch: success, the matching row
updated, the other two tables untouched. -/
theorem end_session_found_parts (st : Store) (sid : String) (now : Nat)
    (h : ∃ s ∈ st.sessions, s.id = sid) :
    (end_session st { session_id := sid } now).1 = .ok () ∧
    (end_session st { session_id := sid } now).2.sessions =
      st.sessions.map (fun s =>
        if s.id == sid then { s with ended_at := some now } else s) ∧
    (end_session st { session_id := sid } now).2.messages = st.messages ∧
    (end_session st { session_id := sid } now).2.feedback = st.feedback := by
  obtain ⟨t, ht⟩ := getSession_isSome h
  simp [end_session, ht]

/-! ### The claims -/

/-- Claim C1: for every session identifier (existing or not) and every role
among `user`, `assistant`, `system`, `save_message` succeeds and appends a
message whose role and content are exactly the submitted ones, leaving the
other tables alone; for any other role string it fails with HTTP 400 and
leaves the whole store unchanged. -/
theorem save_message_role_spec (st : Store) (req : ChatMessageReq)
    (fid : String) (now : Nat) :
    (req.role ∈ validRoles →
      (save_message st req fid now).1 = .ok () ∧
      (save_message st req fid now).2.messages = st.messages ++
        [{ id := fid, session_id := req.session_id, role := req.role,
           content := req.content, ts := now }] ∧
      (save_message st req fid now).2.sessions = st.sessions ∧
      (save_message st req fid now).2.feedback = st.feedback) ∧
    (req.role ∉ validRoles →
      (save_message st req fid now).1 = .error ⟨400, "Invalid role"⟩ ∧
      (save_message st req fid now).2 = st) := by
  constructor <;> intro h <;> simp [save_message, h]

/-- Witness for C1 at concrete inputs: a `user` message is accepted, a
`bot` message is rejected leaving the store untouched. -/
theorem save_message_role_witness :
    (save_message ⟨[], [], []⟩
      { session_id := "s1", role := "user", content := "hello" }
      "m1" 5).1 = .ok () ∧
    (save_message ⟨[], [], []⟩
      { session_id := "s1", role := "bot", content := "hi" }
      "m2" 6).2 = ⟨[], [], []⟩ :=
  ⟨((save_message_role_spec ⟨[], [], []⟩
      { session_id := "s1", role := "user", content := "hello" }
      "m1" 5).1 (by decide)).1,
   ((save_message_role_spec ⟨[], [], []⟩
      { session_id := "s1", role := "bot", content := "hi" }
      "m2" 6).2 (by decide)).2⟩

/-- Claim C2: `end_session` on an identifier absent from the session table
returns HTTP 404 with the store unchanged in every table; on a present
identifier it returns ok and the session carries the new end timestamp. -/
theorem end_session_result_spec (st : Store) (sid : String) (now : Nat) :
    ((∀ s ∈ st.sessions, s.id ≠ sid) →
      (end_session st { session_id := sid } now).1 =
        .error ⟨404, "Session not found"⟩ ∧
      (end_session st { session_id := sid } now).2 = st) ∧
    ((∃ s ∈ st.sessions, s.id = sid) →
      (end_session st { session_id := sid } now).1 = .ok () ∧
      ∃ s' ∈ (end_session st { session_id := sid } now).2.sessions,
        s'.id = sid ∧ s'.ended_at = some now) := by
  constructor
  · intro h
    have hn := getSession_eq_none h
    constructor <;> simp [end_session, hn]
  · intro h
    obtain ⟨h1, h2, _, _⟩ := end_session_found_parts st sid now h
    refine ⟨h1, ?_⟩
    obtain ⟨s, hs, hid⟩ := h
    rw [h2]
    refine ⟨{ s with ended_at := some now }, ?_, hid, rfl⟩
    have hfs : (fun t : Session =>
        if t.id == sid then { t with ended_at := some now } else t) s =
        { s with ended_at := some now } := by simp [hid]
    rw [← hfs]
    exact List.mem_map_of_mem _ hs

/-- Sample session used by concrete witnesses. -/
def sampleSession : Session :=
  { id := "s1", started_at := 3, ended_at := none, consented := true,
    research_version := none, user_agent := none, notes := none }

/-- Sample one-session store used by concrete witnesses. -/
def sampleStore : Store :=
  { sessions := [sampleSession], messages := [], feedback := [] }

/-- Witness for C2 at concrete inputs: ending an unknown session yields
404; ending the sample session yields ok. -/
theorem end_session_result_witness :
    (end_session sampleStore { session_id := "zzz" } 7).1 =
      .error ⟨404, "Session not found"⟩ ∧
    (end_session sampleStore { session_id := "s1" } 7).1 = .ok () :=
  ⟨((end_session_result_spec sampleStore "zzz" 7).1 (by decide)).1,
   ((end_session_result_spec sampleStore "s1" 7).2
      ⟨sampleSession, by decide, rfl⟩).1⟩

/-- Claim C3: on an existing session, `end_session` records an end
timestamp no earlier than the session's start timestamp (the clock `now1`
having advanced past the creation instant), and a second `end_session`
at a strictly later clock reading `now2` overwrites it with a strictly
later end timestamp. -/
theorem end_session_twice_spec (st : Store) (sid : String) (s : Session)
    (now1 now2 : Nat) (hs : s ∈ st.sessions) (hid : s.id = sid)
    (hstart : s.started_at ≤ now1) (hclock : now1 < now2) :
    (end_session st { session_id := sid } now1).1 = .ok () ∧
    (∃ s1 ∈ (end_session st { session_id := sid } now1).2.sessions,
      s1.id = sid ∧ s1.ended_at = some now1 ∧ s1.started_at ≤ now1) ∧
    (end_session (end_session st { session_id := sid } now1).2
        { session_id := sid } now2).1 = .ok () ∧
    (∃ s2 ∈ (end_session (end_session st { session_id := sid } now1).2
          { session_id := sid } now2).2.sessions,
      s2.id = sid ∧ s2.ended_at = some now2 ∧ now1 < now2) := by
  obtain ⟨h1, h2, _, _⟩ :=
    end_session_found_parts st sid now1 ⟨s, hs, hid⟩
  have hf1 : (fun t : Session =>
      if t.id == sid then { t with ended_at := some now1 } else t) s =
      { s with ended_at := some now1 } := by simp [hid]
  have hmem1 : ({ s with ended_at := some now1 } : Session) ∈
      (end_session st { session_id := sid } now1).2.sessions := by
    rw [h2, ← hf1]
    exact List.mem_map_of_mem _ hs
  obtain ⟨g1, g2, _, _⟩ :=
    end_session_found_parts (end_session st { session_id := sid } now1).2
      sid now2 ⟨{ s with ended_at := some now1 }, hmem1, hid⟩
  have hf2 : (fun t : Session =>
      if t.id == sid then { t with ended_at := some now2 } else t)
      { s with ended_at := some now1 } =
      { s with ended_at := some now2 } := by simp [hid]
  have hmem2 : ({ s with ended_at := some now2 } : Session) ∈
      (end_session (end_session st { session_id := sid } now1).2
        { session_id := sid } now2).2.sessions := by
    rw [g2, ← hf2]
    exact List.mem_map_of_mem _ hmem1
  exact ⟨h1, ⟨{ s with ended_at := some now1 }, hmem1, hid, rfl, hstart⟩,
    g1, ⟨{ s with ended_at := some now2 }, hmem2, hid, rfl, hclock⟩⟩

/-- Witness for C3 at concrete inputs: both calls on the sample store
succeed, the clock readings 5 and 9 bracketing the start time 3. -/
theorem end_session_twice_witness :
    (end_session sampleStore { session_id := "s1" } 5).1 = .ok () ∧
    (end_session (end_session sampleStore { session_id := "s1" } 5).2
      { session_id := "s1" } 9).1 = .ok () :=
  ⟨(end_session_twice_spec sampleStore "s1" sampleSession 5 9
      (by decide) rfl (by decide) (by decide)).1,
   (end_session_twice_spec sampleStore "s1" sampleSession 5 9
      (by decide) rfl (by decide) (by decide)).2.2.1⟩

/-- Claim C4: `feedback_start` echoes the caller's session identifier
unchanged and returns exactly the 7 catalog questions in their fixed
order, the first six Likert-scaled 1 to 5 and the last free-text.  The
handler's type mentions no `Store`, mirroring the absence of a database
dependency in the source: no storage read or write can occur. -/
theorem feedback_start_catalog_spec (sid : String) :
    (feedback_start { session_id := sid }).1 = sid ∧
    (feedback_start { session_id := sid }).2.length = 7 ∧
    (feedback_start { session_id := sid }).2.map Question.key =
      ["believability", "realism", "design_opt", "ease_use", "trust",
       "task_success", "free_text"] ∧
    (∀ q ∈ (feedback_start { session_id := sid }).2.take 6,
      q.type = "likert" ∧ q.scale_min = some 1 ∧ q.scale_max = some 5) ∧
    (∀ q ∈ (feedback_start { session_id := sid }).2.drop 6,
      q.type = "text") := by
  have h4 : ∀ q ∈ questionCatalog.take 6,
      q.type = "likert" ∧ q.scale_min = some 1 ∧ q.scale_max = some 5 := by
    decide
  have h5 : ∀ q ∈ questionCatalog.drop 6, q.type = "text" := by decide
  exact ⟨rfl, rfl, rfl, h4, h5⟩

/-- Claim C5: the CSV export is the header row followed cell-for-cell by
the spec's CSV rendering of the JSON export's rows, both exports reading
the feedback table in ascending timestamp order; the JSON rows preserve
null answers while the CSV rendering turns a null numeric into the empty
string and strips newlines from the text answer. -/
theorem export_agreement_spec (st : Store) :
    export_feedback_csv st =
      csvHeader :: (export_feedback_json st).map jsonRowAsCsv ∧
    export_feedback_json st = (sortByTs st.feedback).map toJsonRow ∧
    List.Pairwise (fun a b : FeedbackResponse => a.ts ≤ b.ts)
      (sortByTs st.feedback) ∧
    (∀ r ∈ sortByTs st.feedback,
      (toJsonRow r).answer_numeric = r.answer_numeric ∧
      (toJsonRow r).answer_text = r.answer_text) := by
  refine ⟨?_, rfl, ?_, fun r _ => ⟨rfl, rfl⟩⟩
  · rw [export_feedback_csv, export_feedback_json, List.map_map]
    rfl
  · exact List.sorted_insertionSort tsLe st.feedback

/-- Claim C6: `feedback_answer` succeeds for every session identifier and
question key, including unknown ones — no existence check is made on
either — appending a row that carries the submitted fields verbatim, and
that row shows up verbatim in both exports of the resulting store. -/
theorem feedback_answer_total_spec (st : Store) (req : FeedbackAnswerReq)
    (fid : String) (now : Nat) :
    (feedback_answer st req fid now).1 = .ok () ∧
    ∃ row : FeedbackResponse,
      (feedback_answer st req fid now).2.feedback = st.feedback ++ [row] ∧
      row.session_id = req.session_id ∧ row.q_key = req.q_key ∧
      row.answer_numeric = req.answer_numeric ∧
      row.answer_text = req.answer_text ∧
      toJsonRow row ∈ export_feedback_json (feedback_answer st req fid now).2 ∧
      csvRow row ∈ export_feedback_csv (feedback_answer st req fid now).2 := by
  refine ⟨rfl,
    { id := fid, session_id := req.session_id, q_key := req.q_key,
      answer_numeric := req.answer_numeric, answer_text := req.answer_text,
      ts := now },
    rfl, rfl, rfl, rfl, rfl, ?_, ?_⟩
  · exact List.mem_map_of_mem _
      (mem_sortByTs.mpr (by simp [feedback_answer]))
  · exact List.mem_cons_of_mem _ (List.mem_map_of_mem _
      (mem_sortByTs.mpr (by simp [feedback_answer])))

/-- Claim C7: feedback submission is append-only.  Repeating the same
`(session_id, q_key)` submission `n` times appends exactly `n` rows, all
carrying that pair, with every pre-existing row still in place and
untouched, so the count of rows for the pair grows by exactly `n`. -/
theorem feedback_append_only_spec (sid qk : String) (num : Option Int)
    (txt : Option String) (fid : Nat → String) (now : Nat → Nat) :
    ∀ (n : Nat) (st : Store), ∃ tail : List FeedbackResponse,
      (submitRepeat sid qk num txt fid now n st).feedback =
        st.feedback ++ tail ∧
      tail.length = n ∧
      (∀ r ∈ tail, r.session_id = sid ∧ r.q_key = qk ∧
        r.answer_numeric = num ∧ r.answer_text = txt) ∧
      (submitRepeat sid qk num txt fid now n st).feedback.countP
          (fun r => r.session_id == sid && r.q_key == qk) =
        st.feedback.countP (fun r => r.session_id == sid && r.q_key == qk)
          + n := by
  intro n
  induction n with
  | zero =>
      intro st
      exact ⟨[], by simp [submitRepeat], rfl, by simp, by simp [submitRepeat]⟩
  | succ n ih =>
      intro st
      obtain ⟨tail, heq, hlen, hall, hcount⟩ :=
        ih (feedback_answer st
              { session_id := sid, q_key := qk,
                answer_numeric := num, answer_text := txt }
              (fid n) (now n)).2
      refine
        ⟨{ id := fid n, session_id := sid, q_key := qk,
           answer_numeric := num, answer_text := txt, ts := now n } :: tail,
         ?_, ?_, ?_, ?_⟩
      · simp only [submitRepeat]
        rw [heq]
        simp [feedback_answer]
      · simp [hlen]
      · intro r hr
        rcases List.mem_cons.mp hr with h | h
        · subst h; exact ⟨rfl, rfl, rfl, rfl⟩
        · exact hall r h
      · simp only [submitRepeat]
        rw [hcount]
        simp [feedback_answer, List.countP_append, List.countP_cons]
        omega

/-- Claim C8: `start_session` always succeeds, returning the freshly
generated identifier — distinct from every identifier already stored, the
generator being assumed collision-free — and appends one session row
holding the submitted consent flag (whose request default is `false`),
the creation timestamp, a null end timestamp and the optional metadata,
touching no other table. -/
theorem start_session_fresh_spec (st : Store) (req : StartSessionReq)
    (fid : String) (now : Nat) (hfresh : ∀ s ∈ st.sessions, s.id ≠ fid) :
    (start_session st req fid now).1 = fid ∧
    (∀ s ∈ st.sessions, s.id ≠ (start_session st req fid now).1) ∧
    (∃ sess : Session,
      (start_session st req fid now).2.sessions = st.sessions ++ [sess] ∧
      sess.id = fid ∧ sess.consented = req.consented ∧
      sess.started_at = now ∧ sess.ended_at = none ∧
      sess.research_version = req.research_version ∧
      sess.user_agent = req.user_agent) ∧
    ({ } : StartSessionReq).consented = false ∧
    (start_session st req fid now).2.messages = st.messages ∧
    (start_session st req fid now).2.feedback = st.feedback := by
  exact ⟨rfl, hfresh,
    ⟨{ id := fid, started_at := now, ended_at := none,
       consented := req.consented, research_version := req.research_version,
       user_agent := req.user_agent, notes := none },
      rfl, rfl, rfl, rfl, rfl, rfl, rfl⟩,
    rfl, rfl, rfl⟩

/-- Witness for C8: starting a session on the sample store with a fresh
identifier returns that identifier. -/
theorem start_session_fresh_witness :
    (start_session sampleStore { } "s2" 4).1 = "s2" :=
  (start_session_fresh_spec sampleStore { } "s2" 4 (by decide)).1

/-- Claim C9: two feedback rows differing only in a null versus an empty
text answer render to the same CSV row, while their JSON rows stay
distinct, the null surviving as null. -/
theorem csv_null_text_collision_spec (r r' : FeedbackResponse)
    (htext : r.answer_text = none) (htext' : r'.answer_text = some "")
    (hsid : r.session_id = r'.session_id) (hq : r.q_key = r'.q_key)
    (hnum : r.answer_numeric = r'.answer_numeric) (hts : r.ts = r'.ts) :
    csvRow r = csvRow r' ∧
    (toJsonRow r).answer_text = none ∧
    (toJsonRow r').answer_text = some "" ∧
    toJsonRow r ≠ toJsonRow r' := by
  refine ⟨?_, htext, htext', ?_⟩
  · simp [csvRow, htext, htext', hsid, hq, hnum, hts]
  · intro hcontra
    have hfields := congrArg JsonRow.answer_text hcontra
    rw [show (toJsonRow r).answer_text = r.answer_text from rfl,
        show (toJsonRow r').answer_text = r'.answer_text from rfl,
        htext, htext'] at hfields
    exact Option.noConfusion hfields

/-- Sample feedback row with a null text answer, for the C9 witness. -/
def rowNullText : FeedbackResponse :=
  { id := "f1", session_id := "s1", q_key := "free_text",
    answer_numeric := none, answer_text := none, ts := 8 }

/-- Sample feedback row with an empty text answer, for the C9 witness. -/
def rowEmptyText : FeedbackResponse :=
  { id := "f2", session_id := "s1", q_key := "free_text",
    answer_numeric := none, answer_text := some "", ts := 8 }

/-- Witness for C9 at the two sample rows: identical CSV cells, distinct
JSON objects. -/
theorem csv_null_text_collision_witness :
    csvRow rowNullText = csvRow rowEmptyText ∧
    toJsonRow rowNullText ≠ toJsonRow rowEmptyText :=
  ⟨(csv_null_text_collision_spec rowNullText rowEmptyText
      rfl rfl rfl rfl rfl rfl).1,
   (csv_null_text_collision_spec rowNullText rowEmptyText
      rfl rfl rfl rfl rfl rfl).2.2.2⟩

/-- Claim C10: on an existing session, `end_session` only rewrites that
session's end timestamp.  The message and feedback tables are returned
as-is, the session list keeps its shape row-for-row, every non-matching
session row is returned unchanged, and the matching row keeps its
identifier, start timestamp, consent flag, research version, user agent
and free-text annotation. -/
theorem end_session_frame_spec (st : Store) (sid : String) (now : Nat)
    (h : ∃ s ∈ st.sessions, s.id = sid) :
    (end_session st { session_id := sid } now).1 = .ok () ∧
    (end_session st { session_id := sid } now).2.messages = st.messages ∧
    (end_session st { session_id := sid } now).2.feedback = st.feedback ∧
    List.Forall₂ (fun s s' : Session =>
        s'.id = s.id ∧ s'.started_at = s.started_at ∧
        s'.consented = s.consented ∧
        s'.research_version = s.research_version ∧
        s'.user_agent = s.user_agent ∧ s'.notes = s.notes ∧
        (s.id ≠ sid → s' = s) ∧ (s.id = sid → s'.ended_at = some now))
      st.sessions (end_session st { session_id := sid } now).2.sessions := by
  obtain ⟨h1, h2, h3, h4⟩ := end_session_found_parts st sid now h
  refine ⟨h1, h3, h4, ?_⟩
  rw [h2, List.forall₂_map_right_iff, List.forall₂_same]
  intro x _
  by_cases hxid : x.id = sid
  · simp [hxid]
  · simp [hxid]

/-- Witness for C10: the message and feedback tables of the sample store
survive an `end_session` untouched. -/
theorem end_session_frame_witness :
    (end_session sampleStore { session_id := "s1" } 7).2.messages =
      sampleStore.messages ∧
    (end_session sampleStore { session_id := "s1" } 7).2.feedback =
      sampleStore.feedback :=
  ⟨(end_session_frame_spec sampleStore "s1" 7
      ⟨sampleSession, by decide, rfl⟩).2.1,
   (end_session_frame_spec sampleStore "s1" 7
      ⟨sampleSession, by decide, rfl⟩).2.2.1⟩

end Chatbot
